import Mathlib

/-!
Shallow embedding of `app.py` (photo slideshow server with a TTL photo cache).

Modelling decisions, each tied to the source:
* Time is `Int` seconds.  `CACHE_DURATION_MINUTES = 10` in the source; all
  timestamp arithmetic (`datetime.now() - last_updated`, `timedelta(...)`)
  is carried out in whole seconds, so Python's `int(...total_seconds())` is
  the identity here.
* The SQLite state is `DbState`: the `photos` table as a list of rows and
  the single `cache_info` row for key `'photos'` as `Option Int`
  (`none` = no row).  `SELECT ... ORDER BY name` is modelled by sorting the
  rows by the `name` column (`List.insertionSort`).
* Python truthiness on the configuration strings (`if not GOOGLE_API_KEY`)
  collapses an unset variable and the empty string; both are modelled as
  the empty string.
* The Drive listing API is an oracle `FetchEnv`: the outcome of building
  the service, the first page, and the result of each further page request
  in order.  A page result is either files plus a has-next-token flag, or a
  failure (an `HttpError` or other exception in `request.execute`).
* `download_image` acts on the file cache (set of cached ids) and an oracle
  saying which of the three candidate URLs would return HTTP 200 with a
  non-empty body; the outcome records whether a write happened and how many
  network requests were made.  The fire-and-forget download scheduling in
  `fetch_photos_from_drive` touches only the file cache, never the database
  or the returned list, so it is modelled by these functions alone.
* Background threads (`refresh_cache_async`, `download_images_async`) are
  modelled by their worker bodies as separate operations: within a request
  the spawned thread has not yet run, which is exactly the non-blocking
  behaviour the routes rely on.
-/

namespace Memorial

/-- A row of the `photos` table (and a dict in the `photo_urls` list). -/
structure PhotoRecord where
  id : String
  name : String
  url : String
deriving Repr, DecidableEq

/-- One file entry as returned by the Drive `files().list` call.  `name` is
optional because the source reads it with `file.get('name', '(no name)')`. -/
structure DriveFile where
  id : String
  name : Option String
  mimeType : String
  thumbnailLink : String
deriving Repr, DecidableEq

/-- The SQLite database: the `photos` table and the `cache_info` row for key
`'photos'` (`none` when the row does not exist). -/
structure DbState where
  photos : List PhotoRecord
  cacheLastUpdated : Option Int
deriving Repr, DecidableEq

/-- `CACHE_DURATION_MINUTES = 10` from the source configuration. -/
def CACHE_DURATION_MINUTES : Int := 10

/-- The TTL in seconds, the unit all timestamps are modelled in. -/
def cacheDurationSeconds : Int := CACHE_DURATION_MINUTES * 60

/-- `should_refresh_cache`: no `cache_info` row means refresh; otherwise
refresh when `now - last_updated > timedelta(minutes=CACHE_DURATION_MINUTES)`. -/
def should_refresh_cache (db : DbState) (now : Int) : Bool :=
  match db.cacheLastUpdated with
  | none => true
  | some t => decide (now - t > cacheDurationSeconds)

/-- `save_photos_to_db`: `DELETE FROM photos`, insert the given rows, and
`INSERT OR REPLACE` the cache timestamp with the current time. -/
def save_photos_to_db (db : DbState) (photos : List PhotoRecord) (now : Int) :
    DbState :=
  { photos := photos, cacheLastUpdated := some now }

/-- The comparison `ORDER BY name` sorts by. -/
def nameOrder (a b : PhotoRecord) : Prop := a.name ≤ b.name

instance : DecidableRel nameOrder :=
  fun a b => inferInstanceAs (Decidable (a.name ≤ b.name))

instance : IsTotal PhotoRecord nameOrder :=
  ⟨fun a b => le_total a.name b.name⟩

instance : IsTrans PhotoRecord nameOrder :=
  ⟨fun _ _ _ h h2 => le_trans h h2⟩

/-- `get_photos_from_db`: `SELECT id, name, url FROM photos ORDER BY name`. -/
def get_photos_from_db (db : DbState) : List PhotoRecord :=
  List.insertionSort nameOrder db.photos

/-- Outcome of one `files().list(...).execute` call: files plus whether a
`nextPageToken` was present, or an exception. -/
inductive PageResult where
  | success (files : List DriveFile) (hasNext : Bool)
  | failure
deriving Repr, DecidableEq

/-- Oracle for one call of `fetch_photos_from_drive`: the configuration
strings ("" models unset, matching Python truthiness), whether building the
service raises, the first page, and the results of the page requests issued
by the pagination loop, in order. -/
structure FetchEnv where
  apiKey : String
  folderId : String
  buildFails : Bool
  firstPage : PageResult
  morePages : List PageResult
deriving Repr, DecidableEq

/-- The `while page_token:` loop: as long as the previous page had a next
token, issue the next request; a failure breaks out keeping the accumulated
files, a success extends them.  An exhausted oracle with a pending token is
read as the loop stopping (no further outcome is specified). -/
def paginate : List PageResult → List DriveFile → Bool → List DriveFile
  | _, files, false => files
  | [], files, true => files
  | PageResult.failure :: _, files, true => files
  | PageResult.success fs h :: rest, files, true => paginate rest (files ++ fs) h

/-- Whether the pagination loop was cut short by a page-level failure. -/
def paginateAborted : List PageResult → Bool → Bool
  | _, false => false
  | [], true => false
  | PageResult.failure :: _, true => true
  | PageResult.success _ h :: rest, true => paginateAborted rest h

/-- Building one entry of `photo_urls` from a listed file: the served URL is
the local route `/images/{file_id}`; `thumbnailLink` is not consulted. -/
def drive_file_to_record (f : DriveFile) : PhotoRecord :=
  { id := f.id, name := f.name.getD "(no name)", url := "/images/" ++ f.id }

/-- `fetch_photos_from_drive`: sanity-check the configuration, build the
service, fetch the first page, run the pagination loop, and turn the files
into photo records (returning `[]` when nothing was retrieved).  Every
failure path of the source returns `[]`; no exception escapes. -/
def fetch_photos_from_drive (env : FetchEnv) : List PhotoRecord :=
  if env.apiKey = "" then []
  else if env.folderId = "" then []
  else if env.buildFails then []
  else
    match env.firstPage with
    | PageResult.failure => []
    | PageResult.success fs hasNext =>
      let files := paginate env.morePages fs hasNext
      if files = [] then []
      else files.map drive_file_to_record

/-- True when some failure occurred during the call: missing configuration,
a service-build exception, a failed first page, or a pagination abort. -/
def fetch_failed (env : FetchEnv) : Bool :=
  if env.apiKey = "" then true
  else if env.folderId = "" then true
  else if env.buildFails then true
  else
    match env.firstPage with
    | PageResult.failure => true
    | PageResult.success _ hasNext => paginateAborted env.morePages hasNext

/-- Files of a page result (a failed page contributes none). -/
def pageFiles : PageResult → List DriveFile
  | PageResult.success fs _ => fs
  | PageResult.failure => []

/-- Oracle for `download_image`: whether `requests.get` on candidate URL
number `k` (0, 1, 2) for a given file id returns status 200 with a
non-empty body.  A raised exception behaves like `false`. -/
structure DlEnv where
  ok : String → Nat → Bool

/-- Index of the first of the three candidate URLs that succeeds. -/
def firstOkUrl (env : DlEnv) (fid : String) : Option Nat :=
  if env.ok fid 0 then some 0
  else if env.ok fid 1 then some 1
  else if env.ok fid 2 then some 2
  else none

/-- Result of one `download_image` call: the file cache afterwards (set of
cached ids), whether a file was written, and how many network requests were
made. -/
structure DlOutcome where
  cache : List String
  wrote : Bool
  attempts : Nat
deriving Repr, DecidableEq

/-- `download_image`: skip when the id is already cached (no request, no
write); otherwise try the three URLs in order and persist the first
success; when all fail, leave the cache unchanged after three attempts. -/
def download_image (env : DlEnv) (cache : List String) (fid : String) :
    DlOutcome :=
  if fid ∈ cache then ⟨cache, false, 0⟩
  else
    match firstOkUrl env fid with
    | some k => ⟨fid :: cache, true, k + 1⟩
    | none => ⟨cache, false, 3⟩

/-- What `get_photos` did: the returned list, the database afterwards,
whether the blocking first-run fetch ran, and whether a background refresh
thread was started. -/
structure GetPhotosResult where
  photos : List PhotoRecord
  db : DbState
  didSyncFetch : Bool
  asyncRefreshStarted : Bool
deriving Repr, DecidableEq

/-- `get_photos`: read the cache; when non-empty return it at once, merely
starting a background refresh when the cache is stale; when empty, perform
the one blocking fetch, persisting and returning its result when it is
non-empty, and returning `[]` otherwise. -/
def get_photos (env : FetchEnv) (db : DbState) (now : Int) : GetPhotosResult :=
  let cached := get_photos_from_db db
  if cached ≠ [] then
    { photos := cached, db := db, didSyncFetch := false,
      asyncRefreshStarted := should_refresh_cache db now }
  else
    let photos := fetch_photos_from_drive env
    if photos ≠ [] then
      { photos := photos, db := save_photos_to_db db photos now,
        didSyncFetch := true, asyncRefreshStarted := false }
    else
      { photos := [], db := db, didSyncFetch := true,
        asyncRefreshStarted := false }

/-- The body of the thread `refresh_cache_async` spawns: fetch, and persist
only a non-empty result. -/
def refresh_worker (env : FetchEnv) (db : DbState) (now : Int) : DbState :=
  let photos := fetch_photos_from_drive env
  if photos ≠ [] then save_photos_to_db db photos now else db

/-- JSON body of `/api/refresh`. -/
structure ApiRefreshResponse where
  success : Bool
  count : Nat
  message : String
deriving Repr, DecidableEq

/-- `/api/refresh`: blocking fetch; persist and report the count on a
non-empty result, otherwise report the existing cached count with
`success = false`, leaving the store untouched. -/
def api_refresh (env : FetchEnv) (db : DbState) (now : Int) :
    ApiRefreshResponse × DbState :=
  let photos := fetch_photos_from_drive env
  if photos ≠ [] then
    (⟨true, photos.length, "Photos refreshed successfully"⟩,
      save_photos_to_db db photos now)
  else
    (⟨false, (get_photos_from_db db).length,
      "Failed to fetch from Drive, using cached photos"⟩, db)

/-- The `cache_info` block of `/api/photos` when it is populated. -/
structure CacheInfoBlock where
  last_updated : Int
  next_refresh : Int
  seconds_until_refresh : Int
deriving Repr, DecidableEq

/-- JSON body of `/api/photos`; `cache_info = none` models the empty dict
`{}` the source sends when no `cache_info` row exists. -/
structure ApiPhotosResponse where
  photos : List PhotoRecord
  count : Nat
  cache_info : Option CacheInfoBlock
deriving Repr, DecidableEq

/-- `/api/photos`: run `get_photos`, then re-read the `cache_info` row and,
when present, attach `last_updated`, `next_refresh = last_updated + TTL`
and `seconds_until_refresh = max(0, int((next_refresh - now).seconds))`. -/
def api_photos (env : FetchEnv) (db : DbState) (now : Int) :
    ApiPhotosResponse × DbState :=
  let r := get_photos env db now
  let ci : Option CacheInfoBlock :=
    match r.db.cacheLastUpdated with
    | none => none
    | some t =>
      some ⟨t, t + cacheDurationSeconds, max 0 (t + cacheDurationSeconds - now)⟩
  (⟨r.photos, r.photos.length, ci⟩, r.db)

/-- The operations that touch the database, each carrying the listing
oracle its (possible) fetch would see. -/
inductive Op where
  | getPhotos (env : FetchEnv)
  | refreshWorker (env : FetchEnv)
  | apiRefresh (env : FetchEnv)
  | apiPhotos (env : FetchEnv)
deriving Repr, DecidableEq

/-- The listing oracle an operation runs against. -/
def Op.env : Op → FetchEnv
  | .getPhotos e => e
  | .refreshWorker e => e
  | .apiRefresh e => e
  | .apiPhotos e => e

/-- Effect of one operation on the database. -/
def step : Op → DbState → Int → DbState
  | .getPhotos env, db, now => (get_photos env db now).db
  | .refreshWorker env, db, now => refresh_worker env db now
  | .apiRefresh env, db, now => (api_refresh env db now).2
  | .apiPhotos env, db, now => (api_photos env db now).2

/-- Run a sequence of timestamped operations. -/
def runOps : DbState → List (Op × Int) → DbState
  | db, [] => db
  | db, (op, t) :: rest => runOps (step op db t) rest

/-- Ordering on optional timestamps: an absent timestamp precedes
everything, a present one never disappears and never decreases. -/
def lastLe : Option Int → Option Int → Bool
  | none, _ => true
  | some _, none => false
  | some a, some b => decide (a ≤ b)

/-- The clock never runs backwards along a trace starting at `c`. -/
def timesOk : Int → List (Op × Int) → Bool
  | _, [] => true
  | c, (_, t) :: rest => decide (c ≤ t) && timesOk t rest

/-- The stored timestamp, when present, is at most `c`. -/
def boundedBy (db : DbState) (c : Int) : Bool :=
  match db.cacheLastUpdated with
  | none => true
  | some t => decide (t ≤ c)

/-- Every stored row's `url` is the local serving path for its id. -/
def urlInvariant (db : DbState) : Prop :=
  ∀ r ∈ db.photos, r.url = "/images/" ++ r.id

/-! ### Concrete instances used by witnesses and counterexamples -/

/-- A listed file. -/
def fileA : DriveFile :=
  ⟨"idA", some "a.jpg", "image/jpeg", "https://thumb/idA"⟩

/-- A second listed file. -/
def fileB : DriveFile :=
  ⟨"idB", some "b.jpg", "image/jpeg", "https://thumb/idB"⟩

/-- The photo record built from `fileA`. -/
def recA : PhotoRecord := drive_file_to_record fileA

/-- A fully healthy listing oracle: one page with one file. -/
def envGood : FetchEnv :=
  ⟨"key", "folder", false, PageResult.success [fileA] false, []⟩

/-- An oracle with the API key unset. -/
def envNoKey : FetchEnv :=
  ⟨"", "folder", false, PageResult.success [fileA] false, []⟩

/-- First page succeeds with a pending token, the second page request
fails. -/
def envPartial : FetchEnv :=
  ⟨"key", "folder", false, PageResult.success [fileA] true,
    [PageResult.failure]⟩

/-- Pages 1 and 2 succeed, the third page request fails. -/
def envPartial2 : FetchEnv :=
  ⟨"key", "folder", false, PageResult.success [fileA] true,
    [PageResult.success [fileB] true, PageResult.failure]⟩

/-- A store holding one photo, last refreshed at time 0. -/
def dbOne : DbState := ⟨[recA], some 0⟩

/-- A store holding one photo, last refreshed at time 3. -/
def dbThree : DbState := ⟨[recA], some 3⟩

/-- The empty store, before any refresh ever succeeded. -/
def dbEmpty : DbState := ⟨[], none⟩

/-- A download oracle where every URL succeeds. -/
def dlEnvAll : DlEnv := ⟨fun _ _ => true⟩

/-! ### Helper lemmas -/

/-- Reading the store returns a permutation of the stored rows. -/
theorem get_photos_from_db_perm (db : DbState) :
    (get_photos_from_db db).Perm db.photos :=
  List.perm_insertionSort nameOrder db.photos

/-- The read list is empty exactly when the table is. -/
theorem get_photos_from_db_nil_iff (db : DbState) :
    get_photos_from_db db = [] ↔ db.photos = [] := by
  constructor
  · intro h
    have p := get_photos_from_db_perm db
    rw [h] at p
    exact (p.symm).eq_nil
  · intro h
    simp [get_photos_from_db, h]

/-! ### Claim theorems -/

/-- Claim C1: when the photos table is non-empty, `get_photos` returns the
stored records (as read, a permutation of the rows), leaves the store
untouched, performs no blocking fetch, and starts a background refresh
exactly when the cache is stale; when the table is empty it performs the
one synchronous fetch, and returns and persists the fetched records when
that fetch is non-empty. -/
theorem get_photos_policy (env : FetchEnv) (db : DbState) (now : Int) :
    (db.photos ≠ [] →
      (get_photos env db now).photos = get_photos_from_db db ∧
      (get_photos env db now).photos.Perm db.photos ∧
      (get_photos env db now).db = db ∧
      (get_photos env db now).didSyncFetch = false ∧
      (get_photos env db now).asyncRefreshStarted = should_refresh_cache db now) ∧
    (db.photos = [] →
      (get_photos env db now).didSyncFetch = true ∧
      (fetch_photos_from_drive env ≠ [] →
        (get_photos env db now).photos = fetch_photos_from_drive env ∧
        (get_photos env db now).db =
          save_photos_to_db db (fetch_photos_from_drive env) now)) := by
  constructor
  · intro hne
    have hc : get_photos_from_db db ≠ [] := by
      intro h
      exact hne ((get_photos_from_db_nil_iff db).1 h)
    have hg : get_photos env db now =
        { photos := get_photos_from_db db, db := db, didSyncFetch := false,
          asyncRefreshStarted := should_refresh_cache db now } := by
      simp [get_photos, hc]
    rw [hg]
    exact ⟨rfl, get_photos_from_db_perm db, rfl, rfl, rfl⟩
  · intro he
    have hc : get_photos_from_db db = [] := (get_photos_from_db_nil_iff db).2 he
    by_cases hf : fetch_photos_from_drive env = []
    · simp [get_photos, hc, hf]
    · simp [get_photos, hc, hf]

/-- Witness for C1 at concrete inputs on both branches. -/
theorem get_photos_policy_witness :
    (dbOne.photos ≠ [] ∧
      (get_photos envGood dbOne 0).db = dbOne ∧
      (get_photos envGood dbOne 0).didSyncFetch = false) ∧
    (dbEmpty.photos = [] ∧ fetch_photos_from_drive envGood ≠ [] ∧
      (get_photos envGood dbEmpty 0).photos = fetch_photos_from_drive envGood) :=
  ⟨⟨by decide, ((get_photos_policy envGood dbOne 0).1 (by decide)).2.2.1,
     ((get_photos_policy envGood dbOne 0).1 (by decide)).2.2.2.1⟩,
   ⟨rfl, by decide,
     (((get_photos_policy envGood dbEmpty 0).2 rfl).2 (by decide)).1⟩⟩

/-- Claim C2: a refresh cycle whose fetch returns zero items leaves the
whole database (photos table and cache timestamp) unchanged, on the
first-run path of `get_photos`, in the background refresh worker, and in
the forced `/api/refresh`. -/
theorem empty_fetch_preserves_store (env : FetchEnv) (db : DbState) (now : Int)
    (h : fetch_photos_from_drive env = []) :
    (get_photos env db now).db = db ∧
    refresh_worker env db now = db ∧
    (api_refresh env db now).2 = db := by
  refine ⟨?_, ?_, ?_⟩
  · by_cases hc : get_photos_from_db db = [] <;> simp [get_photos, hc, h]
  · simp [refresh_worker, h]
  · simp [api_refresh, h]

/-- Witness for C2 with an unset API key, so the fetch returns `[]`. -/
theorem empty_fetch_preserves_store_witness :
    fetch_photos_from_drive envNoKey = [] ∧
    ((get_photos envNoKey dbOne 5).db = dbOne ∧
      refresh_worker envNoKey dbOne 5 = dbOne ∧
      (api_refresh envNoKey dbOne 5).2 = dbOne) :=
  ⟨rfl, empty_fetch_preserves_store envNoKey dbOne 5 rfl⟩

/-- Claim C3: a refresh whose fetch is non-empty replaces the photos table
with exactly the fetched items (delete-all plus bulk-insert), stamps the
cache timestamp, and a subsequent read returns those records ordered by
name; the forced refresh and the first-run path perform the same
replacement. -/
theorem refresh_replaces_store (env : FetchEnv) (db : DbState) (now : Int)
    (h : fetch_photos_from_drive env ≠ []) :
    (refresh_worker env db now).photos = fetch_photos_from_drive env ∧
    (refresh_worker env db now).cacheLastUpdated = some now ∧
    (get_photos_from_db (refresh_worker env db now)).Perm
      (fetch_photos_from_drive env) ∧
    List.Sorted nameOrder (get_photos_from_db (refresh_worker env db now)) ∧
    (api_refresh env db now).2 = refresh_worker env db now ∧
    (db.photos = [] → (get_photos env db now).db = refresh_worker env db now) := by
  have hrw : refresh_worker env db now =
      save_photos_to_db db (fetch_photos_from_drive env) now := by
    simp [refresh_worker, h]
  refine ⟨?_, ?_, ?_, ?_, ?_, ?_⟩
  · rw [hrw]; rfl
  · rw [hrw]; rfl
  · rw [hrw]
    exact List.perm_insertionSort nameOrder (fetch_photos_from_drive env)
  · rw [hrw]
    exact List.sorted_insertionSort nameOrder (fetch_photos_from_drive env)
  · simp [api_refresh, h, hrw]
  · intro he
    have hc : get_photos_from_db db = [] := (get_photos_from_db_nil_iff db).2 he
    simp [get_photos, hc, h, hrw]

/-- Witness for C3: a one-item fetch replaces an empty store. -/
theorem refresh_replaces_store_witness :
    fetch_photos_from_drive envGood ≠ [] ∧
    ((refresh_worker envGood dbEmpty 7).photos = fetch_photos_from_drive envGood ∧
      (refresh_worker envGood dbEmpty 7).cacheLastUpdated = some 7) :=
  ⟨by decide,
   ⟨(refresh_replaces_store envGood dbEmpty 7 (by decide)).1,
    (refresh_replaces_store envGood dbEmpty 7 (by decide)).2.1⟩⟩

/-- Claim C4 as stated is false: a page-level failure after a successful
first page is a failure of the call, yet the function returns the
accumulated non-empty list rather than `[]`. -/
theorem fetch_failure_nonempty_counterexample :
    fetch_failed envPartial = true ∧
    fetch_photos_from_drive envPartial ≠ [] := by decide

/-- Claim C4 (amended): the embedding is total (no exception reaches the
caller), and every fatal-to-the-call failure — missing API key, missing
folder id, a service-build exception, or a failed first page — returns the
empty list; only a page-level failure after the first page keeps earlier
files. -/
theorem fetch_fatal_failures_empty (env : FetchEnv)
    (h : env.apiKey = "" ∨ env.folderId = "" ∨ env.buildFails = true ∨
      env.firstPage = PageResult.failure) :
    fetch_photos_from_drive env = [] := by
  unfold fetch_photos_from_drive
  split_ifs with h1 h2 h3
  · rfl
  · rfl
  · rfl
  · rcases h with h | h | h | h
    · exact absurd h h1
    · exact absurd h h2
    · exact absurd h h3
    · rw [h]

/-- Witness for the amended C4 with an unset API key. -/
theorem fetch_fatal_failures_empty_witness :
    (envNoKey.apiKey = "" ∨ envNoKey.folderId = "" ∨
      envNoKey.buildFails = true ∨ envNoKey.firstPage = PageResult.failure) ∧
    fetch_photos_from_drive envNoKey = [] :=
  ⟨Or.inl rfl, fetch_fatal_failures_empty envNoKey (Or.inl rfl)⟩

/-- Claim C5: whenever the `cache_info` block of `/api/photos` is
populated, `seconds_until_refresh` equals
`max(0, TTL - (now - last_updated))` in whole seconds and is never
negative. -/
theorem api_photos_seconds_clamped (env : FetchEnv) (db : DbState) (now : Int)
    (ci : CacheInfoBlock)
    (h : (api_photos env db now).1.cache_info = some ci) :
    ci.seconds_until_refresh =
      max 0 (cacheDurationSeconds - (now - ci.last_updated)) ∧
    0 ≤ ci.seconds_until_refresh := by
  have hci : (api_photos env db now).1.cache_info =
      match (get_photos env db now).db.cacheLastUpdated with
      | none => none
      | some t =>
        some ⟨t, t + cacheDurationSeconds, max 0 (t + cacheDurationSeconds - now)⟩ :=
    rfl
  rw [hci] at h
  cases hdb : (get_photos env db now).db.cacheLastUpdated with
  | none => rw [hdb] at h; cases h
  | some t =>
    rw [hdb] at h
    have hc : ci =
        ⟨t, t + cacheDurationSeconds, max 0 (t + cacheDurationSeconds - now)⟩ :=
      (Option.some.inj h).symm
    rw [hc]
    constructor
    · have harg : t + cacheDurationSeconds - now =
          cacheDurationSeconds - (now - t) := by ring
      rw [harg]
    · exact le_max_left 0 _

/-- Witness for C5: cache stamped at 0, queried at 10 seconds. -/
theorem api_photos_seconds_clamped_witness :
    (api_photos envNoKey dbOne 10).1.cache_info = some ⟨0, 600, 590⟩ ∧
    ((⟨0, 600, 590⟩ : CacheInfoBlock).seconds_until_refresh =
        max 0 (cacheDurationSeconds -
          (10 - (⟨0, 600, 590⟩ : CacheInfoBlock).last_updated)) ∧
      0 ≤ (⟨0, 600, 590⟩ : CacheInfoBlock).seconds_until_refresh) :=
  ⟨by decide, api_photos_seconds_clamped envNoKey dbOne 10 _ (by decide)⟩

/-- Claim C6 is false on the code: before any refresh has succeeded the
`cache_info` row is absent and `/api/photos` answers with an empty
`cache_info` object carrying none of the three fields (here: `none`). -/
theorem api_photos_cache_info_empty_counterexample :
    (api_photos envNoKey dbEmpty 0).1.cache_info = none := by decide

/-- Claim C6 (amended): every `/api/photos` response carries a
`cache_info` member; it is populated with `last_updated`, `next_refresh`
and `seconds_until_refresh` exactly when a `cache_info` row exists after
the coordinator ran, and is the empty object when no refresh has ever
succeeded. -/
theorem api_photos_cache_info_shape (env : FetchEnv) (db : DbState) (now : Int) :
    ((api_photos env db now).2.cacheLastUpdated = none →
      (api_photos env db now).1.cache_info = none) ∧
    (∀ t, (api_photos env db now).2.cacheLastUpdated = some t →
      (api_photos env db now).1.cache_info =
        some ⟨t, t + cacheDurationSeconds,
          max 0 (t + cacheDurationSeconds - now)⟩) := by
  have hci : (api_photos env db now).1.cache_info =
      match (get_photos env db now).db.cacheLastUpdated with
      | none => none
      | some t =>
        some ⟨t, t + cacheDurationSeconds, max 0 (t + cacheDurationSeconds - now)⟩ :=
    rfl
  have hdb2 : (api_photos env db now).2.cacheLastUpdated =
      (get_photos env db now).db.cacheLastUpdated := rfl
  constructor
  · intro h
    rw [hdb2] at h
    rw [hci, h]
  · intro t h
    rw [hdb2] at h
    rw [hci, h]

/-- Witness for the amended C6 on both shapes of the store. -/
theorem api_photos_cache_info_shape_witness :
    ((api_photos envNoKey dbEmpty 0).2.cacheLastUpdated = none ∧
      (api_photos envNoKey dbEmpty 0).1.cache_info = none) ∧
    ((api_photos envNoKey dbOne 10).2.cacheLastUpdated = some 0 ∧
      (api_photos envNoKey dbOne 10).1.cache_info =
        some ⟨0, 0 + cacheDurationSeconds, max 0 (0 + cacheDurationSeconds - 10)⟩) :=
  ⟨⟨rfl, (api_photos_cache_info_shape envNoKey dbEmpty 0).1 rfl⟩,
   ⟨rfl, (api_photos_cache_info_shape envNoKey dbOne 10).2 0 rfl⟩⟩

/-- Unrolling the pagination loop over successful pages up to the first
failing one: the accumulated files survive the break. -/
theorem paginate_prefix_failure (pre rest : List PageResult)
    (acc : List DriveFile)
    (hpre : ∀ p ∈ pre, ∃ fs, p = PageResult.success fs true) :
    paginate (pre ++ PageResult.failure :: rest) acc true =
      acc ++ (pre.map pageFiles).flatten := by
  induction pre generalizing acc with
  | nil => simp [paginate]
  | cons p pre ih =>
    obtain ⟨fs, rfl⟩ := hpre p (List.mem_cons_self p pre)
    have hpre2 : ∀ q ∈ pre, ∃ fs2, q = PageResult.success fs2 true :=
      fun q hq => hpre q (List.mem_cons_of_mem _ hq)
    calc paginate ((PageResult.success fs true :: pre) ++
          PageResult.failure :: rest) acc true
        = paginate (pre ++ PageResult.failure :: rest) (acc ++ fs) true := rfl
      _ = (acc ++ fs) ++ (pre.map pageFiles).flatten := ih (acc ++ fs) hpre2
      _ = acc ++ ((PageResult.success fs true :: pre).map pageFiles).flatten := by
          simp [pageFiles, List.append_assoc]

/-- The guard `if not files: return []` is absorbed by the mapping. -/
theorem map_if_nil (l : List DriveFile) :
    (if l = [] then ([] : List PhotoRecord)
      else l.map drive_file_to_record) = l.map drive_file_to_record := by
  split_ifs with h
  · simp [h]
  · rfl

/-- Claim C7: when the first page succeeds and the request for some later
page fails, pagination aborts but the call still returns the records built
from all files accumulated on the earlier pages. -/
theorem fetch_preserves_earlier_pages (env : FetchEnv) (fs1 : List DriveFile)
    (pre rest : List PageResult)
    (hkey : ¬env.apiKey = "") (hfold : ¬env.folderId = "")
    (hbuild : ¬env.buildFails = true)
    (hfirst : env.firstPage = PageResult.success fs1 true)
    (hmore : env.morePages = pre ++ PageResult.failure :: rest)
    (hpre : ∀ p ∈ pre, ∃ fs, p = PageResult.success fs true) :
    fetch_photos_from_drive env =
      (fs1 ++ (pre.map pageFiles).flatten).map drive_file_to_record := by
  unfold fetch_photos_from_drive
  rw [if_neg hkey, if_neg hfold, if_neg hbuild, hfirst]
  simp only
  rw [hmore, paginate_prefix_failure pre rest fs1 hpre, map_if_nil]

/-- Witness for C7: page 3 fails, the files of pages 1 and 2 are kept. -/
theorem fetch_preserves_earlier_pages_witness :
    (¬envPartial2.apiKey = "" ∧ ¬envPartial2.folderId = "" ∧
      ¬envPartial2.buildFails = true ∧
      envPartial2.firstPage = PageResult.success [fileA] true ∧
      envPartial2.morePages =
        [PageResult.success [fileB] true] ++ PageResult.failure :: []) ∧
    fetch_photos_from_drive envPartial2 =
      ([fileA] ++ ([PageResult.success [fileB] true].map pageFiles).flatten).map
        drive_file_to_record :=
  ⟨⟨by decide, by decide, by decide, rfl, rfl⟩,
   fetch_preserves_earlier_pages envPartial2 [fileA]
     [PageResult.success [fileB] true] [] (by decide) (by decide) (by decide)
     rfl rfl
     (by
       intro p hp
       rw [List.mem_singleton] at hp
       exact ⟨[fileB], hp⟩)⟩

/-- Claim C8: two sequential calls of the download step for one file id
perform at most one successful write, and when the first call created the
cached file the second sees it and returns with no network request and no
write. -/
theorem download_image_idempotent (env : DlEnv) (cache : List String)
    (fid : String) :
    (download_image env cache fid).wrote.toNat +
        (download_image env (download_image env cache fid).cache fid).wrote.toNat
      ≤ 1 ∧
    ((download_image env cache fid).wrote = true →
      download_image env (download_image env cache fid).cache fid =
        ⟨(download_image env cache fid).cache, false, 0⟩) := by
  by_cases hm : fid ∈ cache
  · simp [download_image, hm]
  · cases hok : firstOkUrl env fid with
    | some k =>
      have h1 : download_image env cache fid = ⟨fid :: cache, true, k + 1⟩ := by
        simp [download_image, hm, hok]
      have h2 : download_image env (fid :: cache) fid =
          ⟨fid :: cache, false, 0⟩ := by
        simp [download_image]
      rw [h1]
      constructor
      · rw [h2]
        exact Nat.le.refl
      · intro _
        rw [h2]
    | none =>
      have h1 : download_image env cache fid = ⟨cache, false, 3⟩ := by
        simp [download_image, hm, hok]
      have h2 : download_image env
          (DlOutcome.cache ⟨cache, false, 3⟩) fid = ⟨cache, false, 3⟩ := h1
      constructor
      · rw [h1, h2]
        exact Nat.zero_le 1
      · intro h
        rw [h1] at h
        exact Bool.noConfusion h

/-- Witness for C8: first call writes, second is a no-op. -/
theorem download_image_idempotent_witness :
    ((download_image dlEnvAll [] "idA").wrote.toNat +
        (download_image dlEnvAll (download_image dlEnvAll [] "idA").cache
          "idA").wrote.toNat ≤ 1) ∧
    ((download_image dlEnvAll [] "idA").wrote = true ∧
      download_image dlEnvAll (download_image dlEnvAll [] "idA").cache "idA" =
        ⟨(download_image dlEnvAll [] "idA").cache, false, 0⟩) :=
  ⟨(download_image_idempotent dlEnvAll [] "idA").1,
   ⟨by decide, (download_image_idempotent dlEnvAll [] "idA").2 (by decide)⟩⟩

/-- Any database operation either leaves the store untouched or replaces
it with a non-empty fetch result stamped at the current time. -/
theorem step_cases (op : Op) (db : DbState) (now : Int) :
    step op db now = db ∨
    (fetch_photos_from_drive op.env ≠ [] ∧
      step op db now =
        save_photos_to_db db (fetch_photos_from_drive op.env) now) := by
  have hgp : ∀ env, (get_photos env db now).db = db ∨
      (fetch_photos_from_drive env ≠ [] ∧
        (get_photos env db now).db =
          save_photos_to_db db (fetch_photos_from_drive env) now) := by
    intro env
    by_cases hc : get_photos_from_db db = []
    · by_cases hf : fetch_photos_from_drive env = []
      · left; simp [get_photos, hc, hf]
      · right; exact ⟨hf, by simp [get_photos, hc, hf]⟩
    · left; simp [get_photos, hc]
  cases op with
  | getPhotos env => exact hgp env
  | refreshWorker env =>
    by_cases hf : fetch_photos_from_drive env = []
    · left; simp [step, refresh_worker, hf]
    · right; exact ⟨hf, by simp [step, refresh_worker, hf, Op.env]⟩
  | apiRefresh env =>
    by_cases hf : fetch_photos_from_drive env = []
    · left; simp [step, api_refresh, hf]
    · right; exact ⟨hf, by simp [step, api_refresh, hf, Op.env]⟩
  | apiPhotos env => exact hgp env

/-- `lastLe` is reflexive. -/
theorem lastLe_refl (a : Option Int) : lastLe a a = true := by
  cases a <;> simp [lastLe]

/-- `lastLe` is transitive. -/
theorem lastLe_trans {a b c : Option Int} (h1 : lastLe a b = true)
    (h2 : lastLe b c = true) : lastLe a c = true := by
  cases a <;> cases b <;> cases c <;> simp [lastLe] at * <;> omega

/-- One step at a time not earlier than every stored stamp keeps the stamp
non-decreasing, and the new stamp is bounded by the step's time. -/
theorem step_last_mono (op : Op) (db : DbState) (now c : Int)
    (hb : boundedBy db c = true) (hc : c ≤ now) :
    lastLe db.cacheLastUpdated (step op db now).cacheLastUpdated = true ∧
    boundedBy (step op db now) now = true := by
  rcases step_cases op db now with h | ⟨_, h⟩
  · rw [h]
    refine ⟨lastLe_refl _, ?_⟩
    cases hdb : db.cacheLastUpdated <;>
      simp [boundedBy, hdb] at hb ⊢ <;> omega
  · rw [h]
    constructor
    · cases hdb : db.cacheLastUpdated <;>
        simp [lastLe, save_photos_to_db, boundedBy, hdb] at hb ⊢ <;> omega
    · simp [boundedBy, save_photos_to_db]

/-- Along any chronological trace the stored stamp never decreases. -/
theorem runOps_last_mono (db : DbState) (c : Int) (ops : List (Op × Int))
    (hb : boundedBy db c = true) (ht : timesOk c ops = true) :
    lastLe db.cacheLastUpdated (runOps db ops).cacheLastUpdated = true := by
  induction ops generalizing db c with
  | nil => exact lastLe_refl _
  | cons p rest ih =>
    obtain ⟨op, t⟩ := p
    rw [timesOk, Bool.and_eq_true, decide_eq_true_eq] at ht
    obtain ⟨hct, hrest⟩ := ht
    have hs := step_last_mono op db t c hb hct
    exact lastLe_trans hs.1 (ih (step op db t) t hs.2 hrest)

/-- Claim C9: over every chronological sequence of operations the
`cache_info` timestamp is monotonically non-decreasing, and any step that
changes it is a refresh persisting a non-empty fetched list, stamping the
current time and replacing the table with exactly that list. -/
theorem cache_timestamp_monotone :
    (∀ (db : DbState) (c : Int) (ops : List (Op × Int)),
      boundedBy db c = true → timesOk c ops = true →
      lastLe db.cacheLastUpdated (runOps db ops).cacheLastUpdated = true) ∧
    (∀ (op : Op) (db : DbState) (now : Int),
      (step op db now).cacheLastUpdated ≠ db.cacheLastUpdated →
      fetch_photos_from_drive op.env ≠ [] ∧
      step op db now =
        save_photos_to_db db (fetch_photos_from_drive op.env) now ∧
      (step op db now).cacheLastUpdated = some now ∧
      (step op db now).photos = fetch_photos_from_drive op.env) := by
  constructor
  · exact fun db c ops hb ht => runOps_last_mono db c ops hb ht
  · intro op db now hne
    rcases step_cases op db now with h | ⟨hf, h⟩
    · exact absurd (by rw [h]) hne
    · exact ⟨hf, h, by rw [h]; rfl, by rw [h]; rfl⟩

/-- Witness for C9: a store stamped at 3, one forced refresh at time 5. -/
theorem cache_timestamp_monotone_witness :
    (boundedBy dbThree 3 = true ∧
      timesOk 3 [(Op.apiRefresh envGood, 5)] = true ∧
      lastLe dbThree.cacheLastUpdated
        (runOps dbThree [(Op.apiRefresh envGood, 5)]).cacheLastUpdated = true) ∧
    ((step (Op.apiRefresh envGood) dbThree 5).cacheLastUpdated ≠
        dbThree.cacheLastUpdated ∧
      (step (Op.apiRefresh envGood) dbThree 5).cacheLastUpdated = some 5) :=
  ⟨⟨by decide, by decide,
    cache_timestamp_monotone.1 dbThree 3 [(Op.apiRefresh envGood, 5)]
      (by decide) (by decide)⟩,
   ⟨by decide,
    (cache_timestamp_monotone.2 (Op.apiRefresh envGood) dbThree 5
      (by decide)).2.2.1⟩⟩

/-- Every record a fetch returns serves its image from the local route. -/
theorem fetch_url_local (env : FetchEnv) (r : PhotoRecord)
    (hr : r ∈ fetch_photos_from_drive env) : r.url = "/images/" ++ r.id := by
  unfold fetch_photos_from_drive at hr
  split_ifs at hr with h1 h2 h3
  · exact absurd hr (List.not_mem_nil r)
  · exact absurd hr (List.not_mem_nil r)
  · exact absurd hr (List.not_mem_nil r)
  · cases hfp : env.firstPage with
    | failure =>
      rw [hfp] at hr
      exact absurd hr (List.not_mem_nil r)
    | success fs hasNext =>
      rw [hfp] at hr
      simp only [map_if_nil] at hr
      obtain ⟨f, _, rfl⟩ := List.mem_map.1 hr
      rfl

/-- Claim C10: every record built by the fetch, and hence every record
stored by any operation, has `url = "/images/" ++ id`; the remote
`thumbnailLink` never influences a record. -/
theorem photo_url_is_local_path :
    (∀ (env : FetchEnv) (r : PhotoRecord), r ∈ fetch_photos_from_drive env →
      r.url = "/images/" ++ r.id) ∧
    (∀ (f : DriveFile) (s : String),
      drive_file_to_record { f with thumbnailLink := s } =
        drive_file_to_record f) ∧
    (∀ (op : Op) (db : DbState) (now : Int),
      urlInvariant db → urlInvariant (step op db now)) := by
  refine ⟨fun env r hr => fetch_url_local env r hr, fun f s => rfl, ?_⟩
  intro op db now hinv
  rcases step_cases op db now with h | ⟨_, h⟩
  · rw [h]; exact hinv
  · rw [h]
    intro r hr
    exact fetch_url_local op.env r hr

/-- Witness for C10: the invariant survives a refresh of the empty store. -/
theorem photo_url_is_local_path_witness :
    urlInvariant dbEmpty ∧
    urlInvariant (step (Op.apiRefresh envGood) dbEmpty 5) :=
  ⟨by simp [urlInvariant, dbEmpty],
   photo_url_is_local_path.2.2 (Op.apiRefresh envGood) dbEmpty 5
     (by simp [urlInvariant, dbEmpty])⟩

end Memorial
